import Mathlib

/-!
Shallow embedding of the report-assembly pipeline of the research-agent
repository (src/app.py, src/utils/report_generator.py, src/utils/llm_processor.py,
src/utils/web_scraper.py, src/utils/database.py).  External collaborators
(the generative-model backend, the text splitter, the web fetcher, the JSON
encoder of the store) are passed in as function parameters; everything else is
translated statement by statement from the Python source.
-/

namespace ResearchAgent

/-- One entry of a report\x27s `sources` list: the `{title, url}` projection of a
scraped record (report_generator.py lines 129-136 and 201-208). -/
structure SourceEntry where
  title : String
  url : String
deriving DecidableEq

/-- The `raw_data` sub-dictionary of a report.  The full oracle path stores
`{keywords, comprehensive_insights}`, the simplified path stores only
`{keywords}`; the missing key is modelled by `none`. -/
structure RawData where
  keywords : String
  comprehensive_insights : Option String
deriving DecidableEq

/-- The report dictionary built by `generate_report` /
`generate_simplified_report` (report_generator.py lines 139-151 and 211-222). -/
structure Report where
  title : String
  date : String
  summary : String
  trends : String
  challenges : String
  solutions : String
  sources : List SourceEntry
  raw_data : RawData
deriving DecidableEq

/-- An entry of `processed_data["scraped_content"]` as read by the report
generator: a dictionary whose `title` and `url` keys may be absent
(`item.get("title", "Unknown Source")`, `item.get("url", "#")`). -/
structure SrcDictEntry where
  title : Option String
  url : Option String
deriving DecidableEq

/-- The `processed_data` dictionary: every key may be absent. -/
structure ProcessedData where
  website_analysis : Option String := none
  social_media_analysis : Option String := none
  comprehensive_insights : Option String := none
  scraped_content : Option (List SrcDictEntry) := none
deriving DecidableEq

/-- Substring test on character lists (Python `needle in hay`). -/
def charsContain : List Char → List Char → Bool
  | needle, [] => needle.isEmpty
  | needle, c :: cs => needle.isPrefixOf (c :: cs) || charsContain needle cs

/-- Python `needle in hay` for strings. -/
def pyContains (needle hay : String) : Bool :=
  charsContain needle.data hay.data

/-- Python `s.lower()` (on the ASCII text handled by the pipeline). -/
def pyLower (s : String) : String :=
  String.mk (s.data.map Char.toLower)

/-- Python `s.strip()`: drop whitespace from both ends. -/
def pyStrip (s : String) : String :=
  String.mk (((s.data.dropWhile Char.isWhitespace).reverse.dropWhile Char.isWhitespace).reverse)

/-- Worker for Python `s.split(sep)` with a non-empty separator: cut at every
left-to-right non-overlapping occurrence, keeping empty pieces.  The fuel
argument bounds the recursion and exceeds the input length at every use. -/
def splitGo (sep : List Char) : Nat → List Char → List Char → List (List Char)
  | 0, cur, rest => [cur ++ rest]
  | fuel + 1, cur, rest =>
    if sep.isPrefixOf rest && !sep.isEmpty then
      cur :: splitGo sep fuel [] (rest.drop sep.length)
    else
      match rest with
      | [] => [cur]
      | c :: cs => splitGo sep fuel (cur ++ [c]) cs

/-- Python `s.split(sep)` for a non-empty separator. -/
def pySplit (s sep : String) : List String :=
  (splitGo sep.data (s.data.length + 1) [] s.data).map (fun cs => String.mk cs)

/-- Lexicographic comparison of character lists, the order SQL uses on the
text `date` column. -/
def charsLe : List Char → List Char → Bool
  | [], _ => true
  | _ :: _, [] => false
  | a :: as, b :: bs => if a < b then true else if b < a then false else charsLe as bs

/-- Lexicographic string comparison (SQL text ordering). -/
def strLe (a b : String) : Bool :=
  charsLe a.data b.data

/-- Projection of one scraped-content dictionary entry onto a source entry
(report_generator.py lines 133-136 and 205-208). -/
def sourceEntryOf (item : SrcDictEntry) : SourceEntry :=
  { title := item.title.getD "Unknown Source", url := item.url.getD "#" }

/-- The source-collection loop shared by both report paths
(report_generator.py lines 129-136 and 201-208). -/
def collect_sources (pd : ProcessedData) : List SourceEntry :=
  (pd.scraped_content.getD []).foldl (fun acc item => acc ++ [sourceEntryOf item]) []

/-- One iteration of the section-bucketing loop of the simplified report
(report_generator.py lines 187-193): an `if`/`elif` cascade that overwrites the
bucket on every match. -/
def simpStep (acc : String × String × String) (part : String) : String × String × String :=
  if pyContains "trend" (pyLower part) then
    ("## " ++ part, acc.2.1, acc.2.2)
  else if pyContains "challenge" (pyLower part) then
    (acc.1, "## " ++ part, acc.2.2)
  else if pyContains "solution" (pyLower part) || pyContains "opportunity" (pyLower part) then
    (acc.1, acc.2.1, "## " ++ part)
  else
    acc

/-- Section extraction of the simplified report path (report_generator.py
lines 176-199), returning `(summary, trends, challenges, solutions)`. -/
def simplifiedSections (comprehensive_insights website_analysis : String) : String × String × String × String :=
  if comprehensive_insights ≠ "" then
    let parts := pySplit comprehensive_insights "\n## "
    let tcs := parts.foldl simpStep ("", "", "")
    (parts.headD "No summary available.", tcs.1, tcs.2.1, tcs.2.2)
  else
    ("Research summary not available due to API limitations.",
     if website_analysis ≠ "" then website_analysis.take 1000 else "Trend analysis not available.",
     "Challenge analysis not available.",
     "Solutions analysis not available.")

/-- Model of `generate_simplified_report` (report_generator.py lines 159-224); `today`
stands for `datetime.datetime.now().strftime("%Y-%m-%d")`. -/
def generate_simplified_report (pd : ProcessedData) (keywords today : String) : Report :=
  let ci := pd.comprehensive_insights.getD ""
  let wa := pd.website_analysis.getD ""
  let secs := simplifiedSections ci wa
  { title := "Manufacturing & IIoT Industry Research Report - " ++ today
    date := today
    summary := secs.1
    trends := secs.2.1
    challenges := secs.2.2.1
    solutions := secs.2.2.2
    sources := collect_sources pd
    raw_data := { keywords := keywords, comprehensive_insights := none } }

/-- Title prompt of the full report path (report_generator.py lines 39-43). -/
def title_prompt (today keywords : String) : String :=
  "Generate a professional and specific title for a Manufacturing/IIoT industry research report dated " ++ today ++
  ".\nThe research focused on these keywords: " ++ keywords ++
  ".\nProvide only the title, no additional text or formatting."

/-- Summary prompt (report_generator.py lines 48-59). -/
def summary_prompt (keywords ci : String) : String :=
  "Create an executive summary for an Manufacturing/IIoT industry research report.\n\nThe research focused on: " ++
  keywords ++ "\n\nBased on the following comprehensive insights:\n" ++ ci.take 5000 ++
  "\n\nWrite a concise but informative executive summary (around 300-400 words) that highlights the key findings,\nmajor trends, challenges, and solutions in the manufacturing and IIoT sector. The summary should be\nprofessionally written and provide value to industry executives and decision-makers."

/-- Trends prompt (report_generator.py lines 64-80). -/
def trends_prompt (wa ci : String) : String :=
  "Based on the research data about the Manufacturing/IIoT industry:\n\n" ++ wa.take 3000 ++
  "\n\n" ++ ci.take 3000 ++
  "\n\nGenerate a detailed \"Industry Trends\" section for a research report.\nIdentify and analyze 5-7 major trends currently shaping the manufacturing and IIoT landscape.\nFor each trend, provide:\n1. A clear description of the trend\n2. Evidence of its significance\n3. How it\x27s impacting manufacturers\n4. Early adopters or notable examples\n\nFormat this as a well-structured markdown section with proper headers, bullet points, and emphasis where appropriate."

/-- Challenges prompt (report_generator.py lines 85-103). -/
def challenges_prompt (wa sma ci : String) : String :=
  "Based on the research data about the Manufacturing/IIoT industry:\n\n" ++ wa.take 2500 ++
  "\n\n" ++ sma.take 2500 ++ "\n\n" ++ ci.take 2500 ++
  "\n\nGenerate a detailed \"Industry Challenges\" section for a research report.\nIdentify and analyze 5-7 critical challenges currently facing manufacturers in relation to digital transformation and IIoT.\nFor each challenge, provide:\n1. A clear description of the challenge\n2. Why it\x27s significant\n3. Which segments of manufacturing are most affected\n4. The potential impact if not addressed\n\nFormat this as a well-structured markdown section with proper headers, bullet points, and emphasis where appropriate."

/-- Solutions prompt (report_generator.py lines 108-125). -/
def solutions_prompt (ci wa : String) : String :=
  "Based on the research data about the Manufacturing/IIoT industry:\n\n" ++ ci.take 3000 ++
  "\n\n" ++ wa.take 3000 ++
  "\n\nGenerate a detailed \"Solutions & Opportunities\" section for a research report.\nIdentify and analyze 5-7 promising technological solutions and opportunities that address the challenges in the manufacturing/IIoT space.\nFor each solution/opportunity, provide:\n1. A clear description of the solution\n2. Which challenge(s) it addresses\n3. Benefits and potential ROI\n4. Implementation considerations\n5. Examples of successful implementations if available\n\nFormat this as a well-structured markdown section with proper headers, bullet points, and emphasis where appropriate."

/-- The body of the `try` block of `generate_report` (report_generator.py
lines 27-153): five sequential oracle calls, aborted by the first raised
exception. -/
def report_attempt (oracle : String → Except String String) (pd : ProcessedData)
    (keywords today : String) : Except String Report :=
  let ci := pd.comprehensive_insights.getD ""
  let wa := pd.website_analysis.getD ""
  let sma := pd.social_media_analysis.getD ""
  match oracle (title_prompt today keywords) with
  | .error e => .error e
  | .ok titleText =>
    match oracle (summary_prompt keywords ci) with
    | .error e => .error e
    | .ok summaryText =>
      match oracle (trends_prompt wa ci) with
      | .error e => .error e
      | .ok trendsText =>
        match oracle (challenges_prompt wa sma ci) with
        | .error e => .error e
        | .ok challengesText =>
          match oracle (solutions_prompt ci wa) with
          | .error e => .error e
          | .ok solutionsText =>
            .ok { title := pyStrip titleText
                  date := today
                  summary := summaryText
                  trends := trendsText
                  challenges := challengesText
                  solutions := solutionsText
                  sources := collect_sources pd
                  raw_data := { keywords := keywords, comprehensive_insights := some ci } }

/-- Model of `generate_report` (report_generator.py lines 10-157); `key` stands for the
module-level `GOOGLE_API_KEY` and `oracle` for `model.generate_content`. -/
def generate_report (key : String) (oracle : String → Except String String)
    (pd : ProcessedData) (keywords today : String) : Report :=
  if key = "" then generate_simplified_report pd keywords today
  else
    match report_attempt oracle pd keywords today with
    | .ok r => r
    | .error _ => generate_simplified_report pd keywords today

/-! ### Analysis and synthesis stage (src/utils/llm_processor.py) -/

/-- A scraped-page record as built by the scraper (web_scraper.py lines 46-50);
all three keys are always present. -/
structure ScrapedRecord where
  title : String
  url : String
  content : String
deriving DecidableEq

/-- A search-result dictionary as read by the scraper
(`result.get("url")`, `result.get("title", "")`). -/
structure SearchResult where
  title : Option String := none
  url : Option String := none
deriving DecidableEq

/-- A LinkedIn record as read by the analysis stage
(`item.get("company", "LinkedIn")`, `item.get("text", "")`). -/
structure SocialItem where
  company : Option String := none
  text : Option String := none
deriving DecidableEq

/-- The analysis prompt of `analyze_with_gemini_direct`
(llm_processor.py lines 152-167). -/
def direct_prompt (content : String) : String :=
  "You are an expert in manufacturing industry and Industrial IoT (IIoT).\nAnalyze the following content from manufacturing and IIoT industry websites and extract key information:\n\n[CONTENT]\n" ++
  content ++
  "\n[END CONTENT]\n\nProvide a structured analysis with the following sections:\n1. Main Industry Trends: Identify current trends in manufacturing and IIoT\n2. Industry Challenges: List major challenges facing manufacturers\n3. Emerging Solutions: Describe technological solutions addressing these challenges\n4. Market Insights: Summarize market dynamics and future outlook\n\nFocus specifically on manufacturing and industrial IoT applications, not consumer IoT."

/-- Model of `analyze_with_gemini_direct` (llm_processor.py lines 140-173); `gen` stands
for `model.generate_content`. -/
def analyze_with_gemini_direct (gen : String → Except String String) (content : String) : String :=
  match gen (direct_prompt content) with
  | .ok response => response
  | .error _ => "Error analyzing content with Gemini API."

/-- The social-media analysis prompt (llm_processor.py lines 187-202). -/
def social_prompt (content : String) : String :=
  "You are a manufacturing industry expert focusing on Industrial IoT (IIoT).\nAnalyze the following social media content from manufacturing companies and industry professionals:\n\n[CONTENT]\n" ++
  content ++
  "\n[END CONTENT]\n\nIdentify:\n1. Common topics and themes in industry discussions\n2. Current concerns or challenges mentioned by professionals\n3. Emerging technologies or solutions being discussed\n4. Sentiment towards digital transformation and IIoT adoption\n\nProvide your analysis in a clear, structured format."

/-- Model of `analyze_social_media_with_gemini` (llm_processor.py lines 175-208). -/
def analyze_social_media_with_gemini (gen : String → Except String String) (content : String) : String :=
  match gen (social_prompt content) with
  | .ok response => response
  | .error _ => "Error analyzing social media content."

/-- Leading part of the synthesis prompt (llm_processor.py lines 227-239). -/
def insights_pre : String :=
  "You are an expert analyst in the Manufacturing and Industrial IoT (IIoT) sector.\nYou have analyzed various sources including industry websites and social media.\n\nHere is your analysis of industry websites:\n[WEBSITE ANALYSIS]\n"

/-- Middle part of the synthesis prompt, between the two analysis blocks. -/
def insights_mid : String :=
  "\n[END WEBSITE ANALYSIS]\n\nHere is your analysis of social media content:\n[SOCIAL MEDIA ANALYSIS]\n"

/-- Trailing part of the synthesis prompt (llm_processor.py lines 241-257). -/
def insights_suf : String :=
  "\n[END SOCIAL MEDIA ANALYSIS]\n\nBased on all this information, provide a comprehensive analysis of the manufacturing and IIoT sector with these sections:\n\n1. **Executive Summary**: A brief overview of the current state of the manufacturing/IIoT industry\n\n2. **Key Industry Trends**: The most significant trends currently shaping the industry\n\n3. **Critical Challenges**: Major obstacles and pain points manufacturers are facing\n\n4. **Innovative Solutions**: How technology is addressing these challenges, particularly IIoT solutions\n\n5. **Market Outlook**: Predictions for the future of manufacturing and IIoT, including opportunities\n\n6. **Strategic Recommendations**: Suggested approaches for manufacturers to navigate the current landscape\n\nYour analysis should be detailed, insightful, and provide actionable information for industry professionals.\nFocus on the connection between challenges and IIoT solutions."

/-- The synthesis prompt with the two analysis blocks substituted in
(`prompt.format(website_analysis, social_media_analysis)`). -/
def insights_prompt (website_analysis social_media_analysis : String) : String :=
  insights_pre ++ website_analysis ++ insights_mid ++ social_media_analysis ++ insights_suf

/-- Model of `generate_comprehensive_insights` (llm_processor.py lines 210-263). -/
def generate_comprehensive_insights (gen : String → Except String String) (pd : ProcessedData) : String :=
  let website_analysis := pd.website_analysis.getD "No website analysis available."
  let social_media_analysis := pd.social_media_analysis.getD "No social media analysis available."
  match gen (insights_prompt website_analysis social_media_analysis) with
  | .ok response => response
  | .error _ => "Error generating comprehensive insights."

/-- Model of `process_data_with_langchain` (llm_processor.py lines 28-138); `key` models
`GOOGLE_API_KEY` (`init_genai` fails exactly when it is empty), `splitter` the
`RecursiveCharacterTextSplitter`, `chain_run` the map-reduce summarize chain and
`gen` the direct `model.generate_content` calls.  Note that `combined_data` is
built but never used by the source, so the scraped records do not flow into the
returned dictionary. -/
def process_data_with_langchain (key : String) (splitter : String → List String)
    (chain_run : List String → Except String String) (gen : String → Except String String)
    (search_results : List SearchResult) (scraped_data : List ScrapedRecord)
    (linkedin_data : List SocialItem) : ProcessedData :=
  if key = "" then {}
  else
    let _combined_data := (search_results, scraped_data, linkedin_data)
    let wa : Option String :=
      if scraped_data.isEmpty then none
      else
        let all_content := scraped_data.foldl
          (fun acc item =>
            acc ++ "Source: " ++ item.title ++ " (" ++ item.url ++ ")\n\n" ++
              item.content ++ "\n\n---\n\n") ""
        some (match chain_run (splitter all_content) with
              | .ok summary_result => summary_result
              | .error _ => analyze_with_gemini_direct gen (all_content.take 100000))
    let sma : Option String :=
      if linkedin_data.isEmpty then none
      else
        let linkedin_text := linkedin_data.foldl
          (fun acc item =>
            acc ++ "Source: " ++ item.company.getD "LinkedIn" ++ "\n" ++
              item.text.getD "" ++ "\n\n---\n\n") ""
        some (analyze_social_media_with_gemini gen linkedin_text)
    let pd : ProcessedData := { website_analysis := wa, social_media_analysis := sma }
    { pd with comprehensive_insights := some (generate_comprehensive_insights gen pd) }

/-! ### Web scraper (src/utils/web_scraper.py) -/

/-- Model of `scrape_industry_websites` (web_scraper.py lines 9-60); `fetch` models
`get_website_text_content`, which returns `None` on any extraction failure. -/
def scrape_industry_websites (fetch : String → Option String)
    (search_results : List SearchResult) (max_sites : Nat) : List ScrapedRecord :=
  let sites_to_scrape := search_results.take max_sites
  sites_to_scrape.foldl
    (fun scraped_data result =>
      match result.url with
      | none => scraped_data
      | some url =>
        if url = "" then scraped_data
        else
          match fetch url with
          | some content =>
            if content = "" then scraped_data
            else scraped_data ++ [{ title := result.title.getD "", url := url, content := content }]
          | none => scraped_data) []

/-- The report-producing part of `run_research` (app.py lines 199-223): scrape,
process, generate.  Returns the scraped records together with the final
report. -/
def pipeline_report (key : String) (fetch : String → Option String)
    (splitter : String → List String) (chain_run : List String → Except String String)
    (gen oracle : String → Except String String) (search_results : List SearchResult)
    (num_websites_to_scrape : Nat) (linkedin_data : List SocialItem)
    (keywords today : String) : List ScrapedRecord × Report :=
  let scraped_data := scrape_industry_websites fetch search_results num_websites_to_scrape
  let processed_data := process_data_with_langchain key splitter chain_run gen
    search_results scraped_data linkedin_data
  (scraped_data, generate_report key oracle processed_data keywords today)

/-! ### Report store (src/utils/database.py) -/

/-- One row of the `reports` table (database.py lines 28-41). -/
structure DBRow where
  id : Int
  date : String
  title : String
  summary : String
  trends : String
  challenges : String
  solutions : String
  sources : String
  raw_data : String
  created_at : String
deriving DecidableEq

/-- The `reports` table together with the auto-increment counter of the
surrogate primary key. -/
structure DB where
  next_id : Int
  rows : List DBRow
deriving DecidableEq

/-- A report dictionary as returned by the retrieval operations
(database.py lines 143-167 and 204-225). -/
structure ReportOut where
  id : Int
  date : String
  title : String
  summary : String
  trends : String
  challenges : String
  solutions : String
  created_at : String
  sources : List SourceEntry
  raw_data : RawData
deriving DecidableEq

/-- Model of `save_report` (database.py lines 63-115) on an initialized store: encodes
`sources` and `raw_data` with the JSON encoder `encS`/`encR`, inserts a fresh
row and returns the generated id.  `ts` models the server-side
`CURRENT_TIMESTAMP` default, `today` the `datetime.datetime.now().strftime`
value. -/
def save_report (encS : List SourceEntry → String) (encR : RawData → String)
    (ts today : String) (report : Report) (db : DB) : Int × DB :=
  let sources_json := encS report.sources
  let raw_data_json := encR report.raw_data
  let row : DBRow :=
    { id := db.next_id
      date := today
      title := report.title
      summary := report.summary
      trends := report.trends
      challenges := report.challenges
      solutions := report.solutions
      sources := sources_json
      raw_data := raw_data_json
      created_at := ts }
  (db.next_id, { next_id := db.next_id + 1, rows := db.rows ++ [row] })

/-- The row-to-dictionary conversion shared by both retrieval operations
(database.py lines 143-167 and 204-225): a field whose JSON decoding fails
degrades to the empty collection/object. -/
def rowToReport (decS : String → Option (List SourceEntry))
    (decR : String → Option RawData) (row : DBRow) : ReportOut :=
  { id := row.id
    date := row.date
    title := row.title
    summary := row.summary
    trends := row.trends
    challenges := row.challenges
    solutions := row.solutions
    created_at := row.created_at
    sources := (decS row.sources).getD []
    raw_data := (decR row.raw_data).getD { keywords := "", comprehensive_insights := none } }

/-- Insertion step of the model of `ORDER BY date DESC`: place the row before
the first row whose date is at most its own. -/
def insertByDateDesc (r : DBRow) : List DBRow → List DBRow
  | [] => [r]
  | x :: xs => if strLe x.date r.date then r :: x :: xs else x :: insertByDateDesc r xs

/-- Model of `ORDER BY date DESC` (lexicographic string comparison, as SQL
performs on the `date` text column): insertion sort into descending order. -/
def sortByDateDesc (rows : List DBRow) : List DBRow :=
  rows.foldr insertByDateDesc []

/-- Model of `get_reports` (database.py lines 117-176): `SELECT * FROM reports ORDER BY
date DESC`, with `LIMIT n` appended only when `limit` is truthy (so neither for
`None` nor for `0`). -/
def get_reports (decS : String → Option (List SourceEntry))
    (decR : String → Option RawData) (db : DB) (limit : Option Nat) : List ReportOut :=
  let sorted := sortByDateDesc db.rows
  let limited :=
    match limit with
    | some n => if n ≠ 0 then sorted.take n else sorted
    | none => sorted
  limited.map (rowToReport decS decR)

/-- Model of `get_report_by_id` (database.py lines 178-234): `SELECT * FROM reports
WHERE id = :id` with `fetchone`. -/
def get_report_by_id (decS : String → Option (List SourceEntry))
    (decR : String → Option RawData) (db : DB) (report_id : Int) : Option ReportOut :=
  match db.rows.find? (fun row => row.id == report_id) with
  | some row => some (rowToReport decS decR row)
  | none => none

/-! ### Specification-side views and helper values -/

/-- A Python value, as needed to view a report dictionary: `null` models
Python `None`. -/
inductive PyVal where
  | null : PyVal
  | str : String → PyVal
  | list : List PyVal → PyVal
  | obj : List (String × PyVal) → PyVal

/-- The dictionary view of a source entry. -/
def SourceEntry.toPy (s : SourceEntry) : PyVal :=
  .obj [("title", .str s.title), ("url", .str s.url)]

/-- The dictionary view of the `raw_data` sub-dictionary. -/
def RawData.toPy (rd : RawData) : PyVal :=
  .obj (("keywords", .str rd.keywords) ::
    (match rd.comprehensive_insights with
     | some ci => [("comprehensive_insights", .str ci)]
     | none => []))

/-- The report as the Python dictionary the source builds. -/
def Report.toPy (r : Report) : List (String × PyVal) :=
  [("title", .str r.title), ("date", .str r.date), ("summary", .str r.summary),
   ("trends", .str r.trends), ("challenges", .str r.challenges),
   ("solutions", .str r.solutions),
   ("sources", .list (r.sources.map SourceEntry.toPy)),
   ("raw_data", r.raw_data.toPy)]

/-- The shape contract of an assembled report with respect to the processed
data it was built from: the five narrative keys are bound to (non-null)
strings and `sources` is bound to the list of `{title, url}` projections of
the `scraped_content` entries. -/
def completeReportDict (r : Report) (pd : ProcessedData) : Prop :=
  (∃ s, r.toPy.lookup "title" = some (PyVal.str s)) ∧
  (∃ s, r.toPy.lookup "summary" = some (PyVal.str s)) ∧
  (∃ s, r.toPy.lookup "trends" = some (PyVal.str s)) ∧
  (∃ s, r.toPy.lookup "challenges" = some (PyVal.str s)) ∧
  (∃ s, r.toPy.lookup "solutions" = some (PyVal.str s)) ∧
  r.toPy.lookup "sources" =
    some (PyVal.list (((pd.scraped_content.getD []).map sourceEntryOf).map SourceEntry.toPy))

/-- The bucket test the code applies for `trends`: the whole lowercased
section text contains `"trend"`. -/
def trendB (part : String) : Bool :=
  pyContains "trend" (pyLower part)

/-- The bucket test for `challenges`: reached only when the `trends` test
failed (`elif`). -/
def chalB (part : String) : Bool :=
  !trendB part && pyContains "challenge" (pyLower part)

/-- The bucket test for `solutions`: reached only when the two preceding
tests failed (`elif`). -/
def solB (part : String) : Bool :=
  !trendB part && !(pyContains "challenge" (pyLower part)) &&
    (pyContains "solution" (pyLower part) || pyContains "opportunity" (pyLower part))

/-- State-passing translation of `generate_simplified_report`: the dictionary
argument is threaded through every statement; the source performs only read
operations (`get`, `in`, iteration) on it, so the translation returns it
unchanged next to the constructed report. -/
def generate_simplified_report_state (pd : ProcessedData) (keywords today : String) :
    Report × ProcessedData :=
  let ci := pd.comprehensive_insights.getD ""
  let wa := pd.website_analysis.getD ""
  let secs := simplifiedSections ci wa
  let sources := collect_sources pd
  ({ title := "Manufacturing & IIoT Industry Research Report - " ++ today
     date := today
     summary := secs.1
     trends := secs.2.1
     challenges := secs.2.2.1
     solutions := secs.2.2.2
     sources := sources
     raw_data := { keywords := keywords, comprehensive_insights := none } }, pd)

/-- State-passing translation of `generate_report` (same discipline). -/
def generate_report_state (key : String) (oracle : String → Except String String)
    (pd : ProcessedData) (keywords today : String) : Report × ProcessedData :=
  if key = "" then generate_simplified_report_state pd keywords today
  else
    match report_attempt oracle pd keywords today with
    | .ok r => (r, pd)
    | .error _ => generate_simplified_report_state pd keywords today

/-- A concrete report used to instantiate store theorems. -/
def sampleReport : Report :=
  { title := "t", date := "2024-01-01", summary := "s", trends := "tr",
    challenges := "ch", solutions := "so", sources := [],
    raw_data := { keywords := "kw", comprehensive_insights := none } }

/-- A concrete stored row (date 2024-01-02). -/
def sampleRow1 : DBRow :=
  { id := 1, date := "2024-01-02", title := "t1", summary := "s1", trends := "tr1",
    challenges := "ch1", solutions := "so1", sources := "[]", raw_data := "{}",
    created_at := "c1" }

/-- A second concrete stored row (date 2024-01-03). -/
def sampleRow2 : DBRow :=
  { id := 2, date := "2024-01-03", title := "t2", summary := "s2", trends := "tr2",
    challenges := "ch2", solutions := "so2", sources := "[]", raw_data := "{}",
    created_at := "c2" }

/-- A concrete JSON decoder for source lists, successful on every input. -/
def constDecS : String → Option (List SourceEntry) := fun _ => some []

/-- A concrete JSON decoder for raw data, successful on every input. -/
def constDecR : String → Option RawData :=
  fun _ => some { keywords := "kw", comprehensive_insights := none }

/-! ### Helper lemmas -/

/-- Appending singletons in a fold is mapping. -/
theorem foldl_append_eq_map {α β : Type} (f : α → β) :
    ∀ (l : List α) (acc : List β),
      l.foldl (fun a i => a ++ [f i]) acc = acc ++ l.map f := by
  intro l
  induction l with
  | nil => intro acc; simp
  | cons x xs ih => intro acc; simp [ih]

/-- The source-collection loop projects every scraped entry, in order. -/
theorem collect_sources_eq (pd : ProcessedData) :
    collect_sources pd = (pd.scraped_content.getD []).map sourceEntryOf := by
  unfold collect_sources
  rw [foldl_append_eq_map]
  simp

/-- Whatever the oracle answers, a successful full-path attempt carries the
projected scraped sources. -/
theorem report_attempt_sources {oracle : String → Except String String}
    {pd : ProcessedData} {keywords today : String} {r : Report}
    (h : report_attempt oracle pd keywords today = .ok r) :
    r.sources = collect_sources pd := by
  simp only [report_attempt] at h
  cases h1 : oracle (title_prompt today keywords) with
  | error e => simp [h1] at h
  | ok t1 =>
  simp only [h1] at h
  cases h2 : oracle (summary_prompt keywords (pd.comprehensive_insights.getD "")) with
  | error e => simp [h2] at h
  | ok t2 =>
  simp only [h2] at h
  cases h3 : oracle (trends_prompt (pd.website_analysis.getD "") (pd.comprehensive_insights.getD "")) with
  | error e => simp [h3] at h
  | ok t3 =>
  simp only [h3] at h
  cases h4 : oracle (challenges_prompt (pd.website_analysis.getD "")
      (pd.social_media_analysis.getD "") (pd.comprehensive_insights.getD "")) with
  | error e => simp [h4] at h
  | ok t4 =>
  simp only [h4] at h
  cases h5 : oracle (solutions_prompt (pd.comprehensive_insights.getD "")
      (pd.website_analysis.getD "")) with
  | error e => simp [h5] at h
  | ok t5 =>
  simp only [h5] at h
  injection h with h'
  subst h'
  rfl

/-- Both branches of the report assembler emit the same `sources` list. -/
theorem generate_report_sources (key : String) (oracle : String → Except String String)
    (pd : ProcessedData) (keywords today : String) :
    (generate_report key oracle pd keywords today).sources = collect_sources pd := by
  unfold generate_report
  split
  · rfl
  · cases hr : report_attempt oracle pd keywords today with
    | ok r => simpa using report_attempt_sources hr
    | error e => rfl

/-- A prefix is contained as a substring. -/
theorem charsContain_of_prefix : ∀ (n l : List Char), n.isPrefixOf l = true → charsContain n l = true := by
  intro n l h
  cases l with
  | nil =>
    cases n with
    | nil => rfl
    | cons c cs => simp [List.isPrefixOf] at h
  | cons c cs => simp [charsContain, h]

/-- A list is a prefix of itself followed by anything. -/
theorem isPrefixOf_self_append (n suf : List Char) : n.isPrefixOf (n ++ suf) = true :=
  List.isPrefixOf_iff_prefix.mpr (List.prefix_append n suf)

/-- Substring containment of the middle part of a concatenation. -/
theorem charsContain_parts : ∀ (pre n suf : List Char), charsContain n (pre ++ n ++ suf) = true := by
  intro pre
  induction pre with
  | nil =>
    intro n suf
    simpa using charsContain_of_prefix n (n ++ suf) (isPrefixOf_self_append n suf)
  | cons p ps ih =>
    intro n suf
    simp only [List.cons_append, charsContain, List.append_assoc] at *
    simp [ih n suf]

/-- Python containment of the middle part of a string concatenation. -/
theorem pyContains_parts (s pre suf : String) : pyContains s (pre ++ s ++ suf) = true := by
  unfold pyContains
  rw [String.data_append, String.data_append]
  exact charsContain_parts pre.data s.data suf.data

/-- The bucketing loop keeps, for each bucket, the last matching section
(prefixed with the stripped marker), starting from the given defaults. -/
theorem simpStep_foldl : ∀ (parts : List String) (t c s : String),
    parts.foldl simpStep (t, c, s) =
      ((parts.filter trendB).foldl (fun _ p => "## " ++ p) t,
       (parts.filter chalB).foldl (fun _ p => "## " ++ p) c,
       (parts.filter solB).foldl (fun _ p => "## " ++ p) s) := by
  intro parts
  induction parts with
  | nil => intro t c s; rfl
  | cons p ps ih =>
    intro t c s
    by_cases h1 : pyContains "trend" (pyLower p)
    · have ht : trendB p = true := h1
      have hc : chalB p = false := by simp [chalB, ht]
      have hs : solB p = false := by simp [solB, ht]
      simp only [List.foldl_cons, List.filter_cons, ht, hc, hs, if_true, if_false,
        Bool.false_eq_true, simpStep, h1]
      exact ih ("## " ++ p) c s
    · by_cases h2 : pyContains "challenge" (pyLower p)
      · have ht : trendB p = false := by simp [trendB, h1]
        have hc : chalB p = true := by simp [chalB, trendB, h1, h2]
        have hs : solB p = false := by simp [solB, trendB, h1, h2]
        simp only [List.foldl_cons, List.filter_cons, ht, hc, hs, if_true, if_false,
          Bool.false_eq_true, simpStep, h1, h2]
        exact ih t ("## " ++ p) s
      · by_cases h3 : (pyContains "solution" (pyLower p) || pyContains "opportunity" (pyLower p)) = true
        · have ht : trendB p = false := by simp [trendB, h1]
          have hc : chalB p = false := by simp [chalB, trendB, h1, h2]
          have hs : solB p = true := by simp [solB, trendB, h1, h2, h3]
          simp only [List.foldl_cons, List.filter_cons, ht, hc, hs, if_true, if_false,
            Bool.false_eq_true, simpStep, h1, h2, h3]
          exact ih t c ("## " ++ p)
        · have ht : trendB p = false := by simp [trendB, h1]
          have hc : chalB p = false := by simp [chalB, trendB, h1, h2]
          have hs : solB p = false := by simp [solB, trendB, h1, h2, h3]
          simp only [List.foldl_cons, List.filter_cons, ht, hc, hs, if_true, if_false,
            Bool.false_eq_true, simpStep, h1, h2, h3]
          exact ih t c s

/-- Folding a constant-update function keeps the last element. -/
theorem foldl_tag_getLast : ∀ (m : List String) (d : String),
    m.foldl (fun _ p => "## " ++ p) d =
      (match m.getLast? with
       | some p => "## " ++ p
       | none => d) := by
  intro m
  induction m with
  | nil => intro d; rfl
  | cons a m ih =>
    intro d
    rw [List.foldl_cons, ih ("## " ++ a)]
    cases m with
    | nil => rfl
    | cons b m' =>
      rw [List.getLast?_cons_cons]
      obtain ⟨p, hp⟩ := Option.isSome_iff_exists.mp
        ((List.getLast?_isSome (l := b :: m')).mpr (by simp))
      rw [hp]

/-- Totality of the lexicographic comparison. -/
theorem charsLe_total : ∀ a b : List Char, charsLe a b = true ∨ charsLe b a = true := by
  intro a
  induction a with
  | nil => intro b; exact Or.inl rfl
  | cons x xs ih =>
    intro b
    cases b with
    | nil => exact Or.inr rfl
    | cons y ys =>
      rcases lt_trichotomy x y with h | h | h
      · left; simp [charsLe, h]
      · subst h
        rcases ih ys with h2 | h2
        · left; simp [charsLe, lt_irrefl, h2]
        · right; simp [charsLe, lt_irrefl, h2]
      · right; simp [charsLe, h]

/-- Transitivity of the lexicographic comparison. -/
theorem charsLe_trans : ∀ a b c : List Char,
    charsLe a b = true → charsLe b c = true → charsLe a c = true := by
  intro a
  induction a with
  | nil => intro b c _ _; rfl
  | cons x xs ih =>
    intro b c hab hbc
    cases b with
    | nil => simp [charsLe] at hab
    | cons y ys =>
      cases c with
      | nil => simp [charsLe] at hbc
      | cons z zs =>
        rcases lt_trichotomy x y with hxy | hxy | hxy
        · rcases lt_trichotomy y z with hyz | hyz | hyz
          · simp [charsLe, lt_trans hxy hyz]
          · subst hyz; simp [charsLe, hxy]
          · exfalso
            simp [charsLe, hyz, lt_asymm hyz] at hbc
        · subst hxy
          rcases lt_trichotomy x z with hxz | hxz | hxz
          · simp [charsLe, hxz]
          · subst hxz
            have hab' : charsLe xs ys = true := by simpa [charsLe, lt_irrefl] using hab
            have hbc' : charsLe ys zs = true := by simpa [charsLe, lt_irrefl] using hbc
            simpa [charsLe, lt_irrefl] using ih ys zs hab' hbc'
          · exfalso
            simp [charsLe, hxz, lt_asymm hxz] at hbc
        · exfalso
          simp [charsLe, hxy, lt_asymm hxy] at hab

/-- Totality of the string comparison. -/
theorem strLe_total (a b : String) : strLe a b = true ∨ strLe b a = true :=
  charsLe_total a.data b.data

/-- Transitivity of the string comparison. -/
theorem strLe_trans (a b c : String) (h1 : strLe a b = true) (h2 : strLe b c = true) :
    strLe a c = true :=
  charsLe_trans a.data b.data c.data h1 h2

/-- Membership through the insertion step. -/
theorem mem_insertByDateDesc {b r : DBRow} :
    ∀ {l : List DBRow}, b ∈ insertByDateDesc r l ↔ b = r ∨ b ∈ l := by
  intro l
  induction l with
  | nil => simp [insertByDateDesc]
  | cons x xs ih =>
    simp only [insertByDateDesc]
    split
    · simp [List.mem_cons]
    · simp only [List.mem_cons, ih]
      tauto

/-- The insertion step preserves descending sortedness by date. -/
theorem pairwise_insertByDateDesc {r : DBRow} :
    ∀ {l : List DBRow},
      l.Pairwise (fun a b => strLe b.date a.date = true) →
      (insertByDateDesc r l).Pairwise (fun a b => strLe b.date a.date = true) := by
  intro l
  induction l with
  | nil => intro _; simp [insertByDateDesc]
  | cons x xs ih =>
    intro h
    rw [List.pairwise_cons] at h
    obtain ⟨hx, hxs⟩ := h
    simp only [insertByDateDesc]
    split
    · rename_i hle
      rw [List.pairwise_cons]
      refine ⟨?_, ?_⟩
      · intro b hb
        rcases List.mem_cons.mp hb with rfl | hb
        · exact hle
        · exact strLe_trans b.date x.date r.date (hx b hb) hle
      · rw [List.pairwise_cons]
        exact ⟨hx, hxs⟩
    · rename_i hnle
      have hrx : strLe r.date x.date = true := by
        rcases strLe_total x.date r.date with h | h
        · exact absurd h hnle
        · exact h
      rw [List.pairwise_cons]
      refine ⟨?_, ih hxs⟩
      intro b hb
      rcases mem_insertByDateDesc.mp hb with rfl | hb
      · exact hrx
      · exact hx b hb

/-- The model of `ORDER BY date DESC` yields rows with non-increasing dates. -/
theorem sorted_sortByDateDesc (rows : List DBRow) :
    (sortByDateDesc rows).Pairwise (fun a b => strLe b.date a.date = true) := by
  induction rows with
  | nil => simp [sortByDateDesc]
  | cons x xs ih =>
    have : sortByDateDesc (x :: xs) = insertByDateDesc x (sortByDateDesc xs) := rfl
    rw [this]
    exact pairwise_insertByDateDesc ih

/-- With non-empty insights, the simplified sections are the head section and,
per bucket, the last section passing that bucket test. -/
theorem simplifiedSections_of_insights (ci wa : String) (h : ci ≠ "") :
    simplifiedSections ci wa =
      ((pySplit ci "\n## ").headD "No summary available.",
       (match ((pySplit ci "\n## ").filter trendB).getLast? with
        | some p => "## " ++ p
        | none => ""),
       (match ((pySplit ci "\n## ").filter chalB).getLast? with
        | some p => "## " ++ p
        | none => ""),
       (match ((pySplit ci "\n## ").filter solB).getLast? with
        | some p => "## " ++ p
        | none => "")) := by
  unfold simplifiedSections
  rw [if_pos h]
  show ((pySplit ci "\n## ").headD "No summary available.",
        ((pySplit ci "\n## ").foldl simpStep ("", "", "")).1,
        ((pySplit ci "\n## ").foldl simpStep ("", "", "")).2.1,
        ((pySplit ci "\n## ").foldl simpStep ("", "", "")).2.2) = _
  rw [simpStep_foldl]
  rw [foldl_tag_getLast, foldl_tag_getLast, foldl_tag_getLast]

/-- The substituted website-analysis block occurs inside the synthesis prompt. -/
theorem pyContains_insights_left (wa sma : String) :
    pyContains wa (insights_prompt wa sma) = true := by
  have hsplit : insights_prompt wa sma =
      insights_pre ++ wa ++ (insights_mid ++ sma ++ insights_suf) := by
    unfold insights_prompt
    simp [String.append_assoc]
  rw [hsplit]
  exact pyContains_parts wa insights_pre (insights_mid ++ sma ++ insights_suf)

/-- The substituted social-media block occurs inside the synthesis prompt. -/
theorem pyContains_insights_right (wa sma : String) :
    pyContains sma (insights_prompt wa sma) = true := by
  have hsplit : insights_prompt wa sma =
      (insights_pre ++ wa ++ insights_mid) ++ sma ++ insights_suf := by
    unfold insights_prompt
    simp [String.append_assoc]
  rw [hsplit]
  exact pyContains_parts sma (insights_pre ++ wa ++ insights_mid) insights_suf

/-! ### Claims -/

/-- C1: for every processed_data dictionary and keywords string, the report
returned by generate_report (and by generate_simplified_report) binds each
narrative key (title, summary, trends, challenges, solutions) to a string
(never null, possibly empty or placeholder text), and binds `sources` to the
list (possibly empty) of `{title, url}` projections of the scraped entries —
the assembler is a total function. -/
theorem report_assembler_total (key : String) (oracle : String → Except String String)
    (pd : ProcessedData) (keywords today : String) :
    completeReportDict (generate_report key oracle pd keywords today) pd ∧
    completeReportDict (generate_simplified_report pd keywords today) pd := by
  have hmap : ∀ r : Report,
      r.sources = (pd.scraped_content.getD []).map sourceEntryOf →
      r.toPy.lookup "sources" =
        some (PyVal.list (((pd.scraped_content.getD []).map sourceEntryOf).map SourceEntry.toPy)) := by
    intro r hr
    have hbase : r.toPy.lookup "sources" = some (PyVal.list (r.sources.map SourceEntry.toPy)) := rfl
    rw [hbase, hr]
  constructor
  · exact ⟨⟨_, rfl⟩, ⟨_, rfl⟩, ⟨_, rfl⟩, ⟨_, rfl⟩, ⟨_, rfl⟩,
      hmap _ (by rw [generate_report_sources, collect_sources_eq])⟩
  · refine ⟨⟨_, rfl⟩, ⟨_, rfl⟩, ⟨_, rfl⟩, ⟨_, rfl⟩, ⟨_, rfl⟩, hmap _ ?_⟩
    have hgs : (generate_simplified_report pd keywords today).sources = collect_sources pd := rfl
    rw [hgs, collect_sources_eq]

/-- C2: with an oracle key configured, if any single one of the five oracle
calls (title, summary, trends, challenges, solutions) raises, the returned
report is the simplified-path report in every field. -/
theorem whole_report_degrade (key : String) (oracle : String → Except String String)
    (pd : ProcessedData) (keywords today : String) (hk : key ≠ "")
    (h : (∃ e, oracle (title_prompt today keywords) = .error e) ∨
         (∃ e, oracle (summary_prompt keywords (pd.comprehensive_insights.getD "")) = .error e) ∨
         (∃ e, oracle (trends_prompt (pd.website_analysis.getD "")
            (pd.comprehensive_insights.getD "")) = .error e) ∨
         (∃ e, oracle (challenges_prompt (pd.website_analysis.getD "")
            (pd.social_media_analysis.getD "") (pd.comprehensive_insights.getD "")) = .error e) ∨
         (∃ e, oracle (solutions_prompt (pd.comprehensive_insights.getD "")
            (pd.website_analysis.getD "")) = .error e)) :
    generate_report key oracle pd keywords today = generate_simplified_report pd keywords today := by
  have hatt : ∃ e, report_attempt oracle pd keywords today = .error e := by
    cases h1 : oracle (title_prompt today keywords) with
    | error e1 => exact ⟨e1, by simp only [report_attempt, h1]⟩
    | ok t1 =>
    cases h2 : oracle (summary_prompt keywords (pd.comprehensive_insights.getD "")) with
    | error e2 => exact ⟨e2, by simp only [report_attempt, h1, h2]⟩
    | ok t2 =>
    cases h3 : oracle (trends_prompt (pd.website_analysis.getD "")
        (pd.comprehensive_insights.getD "")) with
    | error e3 => exact ⟨e3, by simp only [report_attempt, h1, h2, h3]⟩
    | ok t3 =>
    cases h4 : oracle (challenges_prompt (pd.website_analysis.getD "")
        (pd.social_media_analysis.getD "") (pd.comprehensive_insights.getD "")) with
    | error e4 => exact ⟨e4, by simp only [report_attempt, h1, h2, h3, h4]⟩
    | ok t4 =>
    cases h5 : oracle (solutions_prompt (pd.comprehensive_insights.getD "")
        (pd.website_analysis.getD "")) with
    | error e5 => exact ⟨e5, by simp only [report_attempt, h1, h2, h3, h4, h5]⟩
    | ok t5 =>
    exfalso
    rcases h with ⟨e, he⟩ | ⟨e, he⟩ | ⟨e, he⟩ | ⟨e, he⟩ | ⟨e, he⟩
    · rw [h1] at he; cases he
    · rw [h2] at he; cases he
    · rw [h3] at he; cases he
    · rw [h4] at he; cases he
    · rw [h5] at he; cases he
  obtain ⟨e, he⟩ := hatt
  unfold generate_report
  rw [if_neg hk, he]

/-- C2 witness: a concrete oracle whose very first call raises degrades the
whole report to the simplified one. -/
theorem whole_report_degrade_witness :
    ("k" : String) ≠ "" ∧
    (∃ e, (fun _ : String => (Except.error "boom" : Except String String))
        (title_prompt "2024-01-01" "kw") = .error e) ∧
    generate_report "k" (fun _ => Except.error "boom") {} "kw" "2024-01-01" =
      generate_simplified_report {} "kw" "2024-01-01" :=
  ⟨by decide, ⟨"boom", rfl⟩,
    whole_report_degrade "k" (fun _ => Except.error "boom") {} "kw" "2024-01-01"
      (by decide) (Or.inl ⟨"boom", rfl⟩)⟩

/-- C3 counterexample: with insights `"Intro\n## Trend A\nx\n## Beta\ntrend y"`
the first (and only) section whose heading contains "trend" is `"Trend A"`,
yet the code assigns `trends` the later section `"Beta"`, whose body (not
heading) mentions "trend" — the loop matches on the whole section text and the
last match wins, so the claim as stated is false. -/
theorem section_bucketing_counterexample :
    (generate_simplified_report
        { comprehensive_insights := some "Intro\n## Trend A\nx\n## Beta\ntrend y" }
        "kw" "2024-01-01").trends = "## Beta\ntrend y" ∧
    (generate_simplified_report
        { comprehensive_insights := some "Intro\n## Trend A\nx\n## Beta\ntrend y" }
        "kw" "2024-01-01").trends ≠ "## Trend A\nx" := by decide

/-- C3 (amended): when comprehensive_insights is non-empty it is split on
`"\n## "`, the first section becomes summary, and each of
trends/challenges/solutions is assigned (with `"## "` prepended) the LAST
section whose WHOLE TEXT case-insensitively contains "trend" / contains
"challenge" but not "trend" / contains "solution" or "opportunity" but neither
"trend" nor "challenge" (the `elif` priority), or the empty string when no
section matches. -/
theorem section_bucketing_last_match (pd : ProcessedData) (keywords today : String)
    (h : pd.comprehensive_insights.getD "" ≠ "") :
    (generate_simplified_report pd keywords today).summary =
        (pySplit (pd.comprehensive_insights.getD "") "\n## ").headD "No summary available." ∧
    (generate_simplified_report pd keywords today).trends =
        (match ((pySplit (pd.comprehensive_insights.getD "") "\n## ").filter trendB).getLast? with
         | some p => "## " ++ p
         | none => "") ∧
    (generate_simplified_report pd keywords today).challenges =
        (match ((pySplit (pd.comprehensive_insights.getD "") "\n## ").filter chalB).getLast? with
         | some p => "## " ++ p
         | none => "") ∧
    (generate_simplified_report pd keywords today).solutions =
        (match ((pySplit (pd.comprehensive_insights.getD "") "\n## ").filter solB).getLast? with
         | some p => "## " ++ p
         | none => "") := by
  have hs := simplifiedSections_of_insights (pd.comprehensive_insights.getD "")
    (pd.website_analysis.getD "") h
  refine ⟨?_, ?_, ?_, ?_⟩
  · show (simplifiedSections (pd.comprehensive_insights.getD "")
      (pd.website_analysis.getD "")).1 = _
    rw [hs]
  · show (simplifiedSections (pd.comprehensive_insights.getD "")
      (pd.website_analysis.getD "")).2.1 = _
    rw [hs]
  · show (simplifiedSections (pd.comprehensive_insights.getD "")
      (pd.website_analysis.getD "")).2.2.1 = _
    rw [hs]
  · show (simplifiedSections (pd.comprehensive_insights.getD "")
      (pd.website_analysis.getD "")).2.2.2 = _
    rw [hs]

/-- C3 witness: the spec example with one section headed "Key Industry Trends"
and one headed "Critical Challenges" (clean bodies) buckets as expected. -/
theorem section_bucketing_last_match_witness :
    ({ comprehensive_insights :=
        some "Intro\n## Key Industry Trends\nT\n## Critical Challenges\nC" } :
      ProcessedData).comprehensive_insights.getD "" ≠ "" ∧
    (generate_simplified_report
        { comprehensive_insights :=
            some "Intro\n## Key Industry Trends\nT\n## Critical Challenges\nC" }
        "kw" "2024-01-01").trends = "## Key Industry Trends\nT" ∧
    (generate_simplified_report
        { comprehensive_insights :=
            some "Intro\n## Key Industry Trends\nT\n## Critical Challenges\nC" }
        "kw" "2024-01-01").challenges = "## Critical Challenges\nC" := by
  have h := section_bucketing_last_match
    { comprehensive_insights :=
        some "Intro\n## Key Industry Trends\nT\n## Critical Challenges\nC" }
    "kw" "2024-01-01" (by decide)
  exact ⟨by decide, by rw [h.2.1]; decide, by rw [h.2.2.1]; decide⟩

/-- C4 (code bug): for search result `{url: "https://a.com", title: "A"}` whose
URL the fetcher resolves, the scraper does append exactly one record; but the
pipeline report's `sources` is empty, because `process_data_with_langchain`
builds `combined_data` with the scraped records and then discards it, so
`generate_report` never sees a `scraped_content` key. -/
theorem pipeline_drops_scraped_sources :
    (pipeline_report "k" (fun u => if u = "https://a.com" then some "Industrial content" else none)
        (fun s => [s]) (fun _ => Except.ok "analysis") (fun _ => Except.ok "text")
        (fun _ => Except.ok "text")
        [{ title := some "A", url := some "https://a.com" }] 10 [] "kw" "2024-01-01").1 =
      [{ title := "A", url := "https://a.com", content := "Industrial content" }] ∧
    (pipeline_report "k" (fun u => if u = "https://a.com" then some "Industrial content" else none)
        (fun s => [s]) (fun _ => Except.ok "analysis") (fun _ => Except.ok "text")
        (fun _ => Except.ok "text")
        [{ title := some "A", url := some "https://a.com" }] 10 [] "kw" "2024-01-01").2.sources =
      [] := by decide

/-- C5: with no oracle key configured, generate_report is the simplified
report and its title is the literal default title ending in the current
date. -/
theorem offline_simplified_report (oracle : String → Except String String)
    (pd : ProcessedData) (keywords today : String) :
    generate_report "" oracle pd keywords today = generate_simplified_report pd keywords today ∧
    (generate_report "" oracle pd keywords today).title =
      "Manufacturing & IIoT Industry Research Report - " ++ today :=
  ⟨rfl, rfl⟩

/-- C6 counterexample: `get_reports(limit=0)` returns every report, because
`if limit:` is falsy for `0` and the `LIMIT` clause is not appended — so "at
most N" fails at N = 0 on a store with one report. -/
theorem get_reports_limit_zero_counterexample :
    ¬ (get_reports constDecS constDecR { next_id := 2, rows := [sampleRow1] }
        (some 0)).length ≤ 0 := by decide

/-- C6 (amended): for every N ≥ 1, `get_reports(limit=N)` returns at most N
reports, and the returned list is sorted by the date field in descending
(lexicographic) order. -/
theorem get_reports_limit_sorted (decS : String → Option (List SourceEntry))
    (decR : String → Option RawData) (db : DB) (n : Nat) (h : 1 ≤ n) :
    (get_reports decS decR db (some n)).length ≤ n ∧
    (get_reports decS decR db (some n)).Pairwise (fun a b => strLe b.date a.date = true) := by
  have hn : n ≠ 0 := by omega
  have hget : get_reports decS decR db (some n) =
      ((sortByDateDesc db.rows).take n).map (rowToReport decS decR) := by
    unfold get_reports
    simp [hn]
  rw [hget]
  constructor
  · rw [List.length_map]
    exact List.length_take_le n _
  · rw [List.pairwise_map]
    exact List.Pairwise.sublist (List.take_sublist n _) (sorted_sortByDateDesc db.rows)

/-- C6 witness: a two-row store with limit 1. -/
theorem get_reports_limit_sorted_witness :
    1 ≤ 1 ∧
    ((get_reports constDecS constDecR { next_id := 3, rows := [sampleRow1, sampleRow2] }
        (some 1)).length ≤ 1 ∧
     (get_reports constDecS constDecR { next_id := 3, rows := [sampleRow1, sampleRow2] }
        (some 1)).Pairwise (fun a b => strLe b.date a.date = true)) :=
  ⟨by decide, get_reports_limit_sorted constDecS constDecR
    { next_id := 3, rows := [sampleRow1, sampleRow2] } 1 (by decide)⟩

/-- C7: when the JSON encoding round-trips the report's `sources` and
`raw_data` and the store's fresh id is unused, saving and then fetching by
the returned id yields a report whose `sources` and `raw_data` equal the
originals. -/
theorem save_then_get_roundtrip
    (encS : List SourceEntry → String) (encR : RawData → String)
    (decS : String → Option (List SourceEntry)) (decR : String → Option RawData)
    (ts today : String) (r : Report) (db : DB)
    (h1 : decS (encS r.sources) = some r.sources)
    (h2 : decR (encR r.raw_data) = some r.raw_data)
    (hfresh : ∀ row ∈ db.rows, row.id ≠ db.next_id) :
    ∃ out : ReportOut,
      get_report_by_id decS decR (save_report encS encR ts today r db).2
          (save_report encS encR ts today r db).1 = some out ∧
      out.sources = r.sources ∧ out.raw_data = r.raw_data := by
  have hnone : db.rows.find? (fun row => row.id == db.next_id) = none := by
    rw [List.find?_eq_none]
    intro x hx
    simpa using hfresh x hx
  refine ⟨rowToReport decS decR
      { id := db.next_id, date := today, title := r.title, summary := r.summary,
        trends := r.trends, challenges := r.challenges, solutions := r.solutions,
        sources := encS r.sources, raw_data := encR r.raw_data, created_at := ts },
    ?_, ?_, ?_⟩
  · unfold get_report_by_id save_report
    simp only [List.find?_append, hnone, Option.none_or]
    simp [List.find?]
  · simp [rowToReport, h1]
  · simp [rowToReport, h2]

/-- C7 witness: constant encoders and decoders that round-trip the sample
report's empty sources and raw data. -/
theorem save_then_get_roundtrip_witness :
    (constDecS ((fun _ => "S") sampleReport.sources) = some sampleReport.sources ∧
     constDecR ((fun _ => "R") sampleReport.raw_data) = some sampleReport.raw_data) ∧
    (∃ out : ReportOut,
      get_report_by_id constDecS constDecR
          (save_report (fun _ => "S") (fun _ => "R") "ts" "2024-01-05" sampleReport
            { next_id := 1, rows := [] }).2
          (save_report (fun _ => "S") (fun _ => "R") "ts" "2024-01-05" sampleReport
            { next_id := 1, rows := [] }).1 = some out ∧
      out.sources = sampleReport.sources ∧ out.raw_data = sampleReport.raw_data) :=
  ⟨⟨rfl, rfl⟩,
    save_then_get_roundtrip (fun _ => "S") (fun _ => "R") constDecS constDecR "ts"
      "2024-01-05" sampleReport { next_id := 1, rows := [] } rfl rfl (by simp)⟩

/-- C8: the synthesis stage is total — it returns the oracle's text on
success and the literal "Error generating comprehensive insights." on
failure — and the prompt the oracle receives always physically contains the
two analysis blocks, each substituted with its placeholder sentence when
absent. -/
theorem comprehensive_insights_total (gen : String → Except String String)
    (pd : ProcessedData) :
    (generate_comprehensive_insights gen pd =
      match gen (insights_prompt (pd.website_analysis.getD "No website analysis available.")
          (pd.social_media_analysis.getD "No social media analysis available.")) with
      | .ok t => t
      | .error _ => "Error generating comprehensive insights.") ∧
    pyContains (pd.website_analysis.getD "No website analysis available.")
      (insights_prompt (pd.website_analysis.getD "No website analysis available.")
        (pd.social_media_analysis.getD "No social media analysis available.")) = true ∧
    pyContains (pd.social_media_analysis.getD "No social media analysis available.")
      (insights_prompt (pd.website_analysis.getD "No website analysis available.")
        (pd.social_media_analysis.getD "No social media analysis available.")) = true :=
  ⟨rfl, pyContains_insights_left _ _, pyContains_insights_right _ _⟩

/-- C9 counterexample: with a configured key, non-empty social input and a
failing oracle, `social_media_analysis` is present and bound to the error
placeholder — the field is not absent on oracle failure as the claim says. -/
theorem processed_fields_counterexample :
    (process_data_with_langchain "k" (fun _ => []) (fun _ => Except.error "e")
        (fun _ => Except.error "e") [] []
        [{ company := some "Acme", text := some "post" }]).social_media_analysis =
      some "Error analyzing social media content." := by decide

/-- C9 (amended): with a configured key, `website_analysis` is present iff
scraped data is non-empty (its value may be a fallback/error string when the
oracle failed), `social_media_analysis` is present iff social data is
non-empty (error string on oracle failure), and `comprehensive_insights` is
always present (possibly the error literal); the returned dictionary never
carries a `scraped_content` key. -/
theorem processed_fields_presence (key : String) (splitter : String → List String)
    (chain_run : List String → Except String String) (gen : String → Except String String)
    (search_results : List SearchResult) (scraped_data : List ScrapedRecord)
    (linkedin_data : List SocialItem) (hk : key ≠ "") :
    (process_data_with_langchain key splitter chain_run gen search_results scraped_data
        linkedin_data).website_analysis.isSome = !scraped_data.isEmpty ∧
    (process_data_with_langchain key splitter chain_run gen search_results scraped_data
        linkedin_data).social_media_analysis.isSome = !linkedin_data.isEmpty ∧
    (process_data_with_langchain key splitter chain_run gen search_results scraped_data
        linkedin_data).comprehensive_insights.isSome = true ∧
    (process_data_with_langchain key splitter chain_run gen search_results scraped_data
        linkedin_data).scraped_content = none := by
  unfold process_data_with_langchain
  rw [if_neg hk]
  by_cases hs : scraped_data.isEmpty <;> by_cases hl : linkedin_data.isEmpty <;>
    simp [hs, hl]

/-- C9 witness: configured key, empty scraped data, one social record. -/
theorem processed_fields_presence_witness :
    ("k" : String) ≠ "" ∧
    ((process_data_with_langchain "k" (fun s => [s]) (fun _ => Except.ok "a")
        (fun _ => Except.ok "g") [] []
        [{ company := some "Acme", text := some "post" }]).website_analysis.isSome =
          !(([] : List ScrapedRecord)).isEmpty ∧
     (process_data_with_langchain "k" (fun s => [s]) (fun _ => Except.ok "a")
        (fun _ => Except.ok "g") [] []
        [{ company := some "Acme", text := some "post" }]).social_media_analysis.isSome =
          !([({ company := some "Acme", text := some "post" } : SocialItem)]).isEmpty ∧
     (process_data_with_langchain "k" (fun s => [s]) (fun _ => Except.ok "a")
        (fun _ => Except.ok "g") [] []
        [{ company := some "Acme", text := some "post" }]).comprehensive_insights.isSome = true ∧
     (process_data_with_langchain "k" (fun s => [s]) (fun _ => Except.ok "a")
        (fun _ => Except.ok "g") [] []
        [{ company := some "Acme", text := some "post" }]).scraped_content = none) :=
  ⟨by decide, processed_fields_presence "k" (fun s => [s]) (fun _ => Except.ok "a")
    (fun _ => Except.ok "g") [] [] [{ company := some "Acme", text := some "post" }]
    (by decide)⟩

/-- C10: the simplified report generator (and the report generator as a whole,
hence in particular its simplified branch) never mutates the processed_data
dictionary: the state-passing translation, which threads the dictionary
through every statement, returns it unchanged next to the constructed
report. -/
theorem simplified_report_no_mutation (key : String)
    (oracle : String → Except String String) (pd : ProcessedData)
    (keywords today : String) :
    generate_simplified_report_state pd keywords today =
      (generate_simplified_report pd keywords today, pd) ∧
    generate_report_state key oracle pd keywords today =
      (generate_report key oracle pd keywords today, pd) := by
  refine ⟨rfl, ?_⟩
  unfold generate_report_state generate_report
  split
  · rfl
  · cases report_attempt oracle pd keywords today <;> rfl

end ResearchAgent
